import Mathlib

set_option maxRecDepth 8000
set_option maxHeartbeats 1000000

/-!
Verification development for the `agent-deployer` repository
(`src/agent_deployer/deploy.py` and `src/agent_deployer/cli.py`).

The repository renders a systemd unit file and an nginx virtual-host file
by Python `string.Template.substitute` and orchestrates a linear sequence of
shell commands.  This file embeds, directly from the source:

* the `string.Template.substitute` placeholder semantics (scan for `$$`,
  `$identifier`, `$\x7bidentifier\x7d`; a missing key raises `KeyError`, a
  syntactically invalid placeholder raises `ValueError`);
* the five module-level template constants of `deploy.py`, verbatim;
* `_get_exec_start`, the environment-file parsing loop, `deploy_api`
  (as a trace of attempted external commands and temp-file writes over an
  oracle `World` describing the host), and `cli.main`.
-/

/-- Errors of Python `string.Template.substitute`: `missingKey k` models
`KeyError(k)` raised when a referenced placeholder is not in the mapping;
`invalidPlaceholder` models the `ValueError` raised on a `$` that starts no
syntactically valid placeholder. -/
inductive RError where
  | missingKey (k : String)
  | invalidPlaceholder
deriving DecidableEq, Repr

/-- Python identifier-start characters for ASCII id pattern
`[_a-zA-Z][_a-zA-Z0-9]*` used by `string.Template`. -/
def isIdStart (c : Char) : Bool :=
  c = '_' || ('a' ≤ c && c ≤ 'z') || ('A' ≤ c && c ≤ 'Z')

/-- Python identifier-continuation characters for the same pattern. -/
def isIdChar (c : Char) : Bool :=
  isIdStart c || ('0' ≤ c && c ≤ '9')

/-- Association-list lookup, modelling Python dict lookup for the keyword
arguments passed to `Template.substitute` (all call sites use distinct keys). -/
def lookupStr (k : String) : List (String × String) → Option String
  | [] => none
  | (a, v) :: rest => if a = k then some v else lookupStr k rest

/-- Scanner state for the `string.Template` regular expression
`$(?:(escaped $)|(named id)|\x7b(braced id)\x7d|(invalid))`:
`text` is outside any placeholder, `afterDollar` has just consumed `$`,
`named acc` is inside `$identifier`, `braced acc` inside `$\x7bidentifier\x7d`. -/
inductive Mode where
  | text
  | afterDollar
  | named (acc : List Char)
  | braced (acc : List Char)

/-- One-pass substitution, hand-compiled from `Template.substitute`'s
left-to-right `re.sub` with a converter that raises `KeyError` on a missing
named/braced key and `ValueError` on an invalid placeholder.  Substituted
values are inserted verbatim (they are not rescanned), matching `re.sub`. -/
def runT (m : List (String × String)) : Mode → List Char → Except RError (List Char)
  | .text, [] => .ok []
  | .text, c :: cs =>
    if c = '$' then runT m .afterDollar cs
    else
      match runT m .text cs with
      | .ok out => .ok (c :: out)
      | .error e => .error e
  | .afterDollar, [] => .error .invalidPlaceholder
  | .afterDollar, c :: cs =>
    if c = '$' then
      match runT m .text cs with
      | .ok out => .ok ('$' :: out)
      | .error e => .error e
    else if c = '{' then runT m (.braced []) cs
    else if isIdStart c then runT m (.named [c]) cs
    else .error .invalidPlaceholder
  | .named acc, [] =>
    (match lookupStr (String.mk acc) m with
     | some v => .ok v.data
     | none => .error (.missingKey (String.mk acc)))
  | .named acc, c :: cs =>
    if isIdChar c then runT m (.named (acc ++ [c])) cs
    else
      match lookupStr (String.mk acc) m with
      | some v =>
        if c = '$' then
          match runT m .afterDollar cs with
          | .ok out => .ok (v.data ++ out)
          | .error e => .error e
        else
          match runT m .text cs with
          | .ok out => .ok (v.data ++ c :: out)
          | .error e => .error e
      | none => .error (.missingKey (String.mk acc))
  | .braced _, [] => .error .invalidPlaceholder
  | .braced acc, c :: cs =>
    if c = '}' then
      match acc with
      | [] => .error .invalidPlaceholder
      | a :: _ =>
        if isIdStart a then
          match lookupStr (String.mk acc) m with
          | some v =>
            (match runT m .text cs with
             | .ok out => .ok (v.data ++ out)
             | .error e => .error e)
          | none => .error (.missingKey (String.mk acc))
        else .error .invalidPlaceholder
    else if isIdChar c then runT m (.braced (acc ++ [c])) cs
    else .error .invalidPlaceholder

/-- `substitute t m` models `Template(t).substitute(**m)`. -/
def substitute (t : String) (m : List (String × String)) : Except RError String :=
  match runT m .text t.data with
  | .ok cs => .ok (String.mk cs)
  | .error e => .error e

/-- The placeholder names a template references, in scan order; `none` when
the scan meets a syntactically invalid placeholder.  Mirrors `runT` with the
substitution mapping abstracted away. -/
def namesT : Mode → List Char → Option (List String)
  | .text, [] => some []
  | .text, c :: cs =>
    if c = '$' then namesT .afterDollar cs else namesT .text cs
  | .afterDollar, [] => none
  | .afterDollar, c :: cs =>
    if c = '$' then namesT .text cs
    else if c = '{' then namesT (.braced []) cs
    else if isIdStart c then namesT (.named [c]) cs
    else none
  | .named acc, [] => some [String.mk acc]
  | .named acc, c :: cs =>
    if isIdChar c then namesT (.named (acc ++ [c])) cs
    else if c = '$' then (namesT .afterDollar cs).map (String.mk acc :: ·)
    else (namesT .text cs).map (String.mk acc :: ·)
  | .braced _, [] => none
  | .braced acc, c :: cs =>
    if c = '}' then
      match acc with
      | [] => none
      | a :: _ =>
        if isIdStart a then (namesT .text cs).map (String.mk acc :: ·) else none
    else if isIdChar c then namesT (.braced (acc ++ [c])) cs
    else none

/-- Placeholder names referenced by a template, in scan order. -/
def placeholderNames (t : String) : Option (List String) :=
  namesT .text t.data

/-- Scanning a template whose placeholders are syntactically well-formed and
whose referenced names include one absent from the mapping stops with a
`missingKey` error naming a referenced, absent key (the first one met). -/
theorem runT_missing (m : List (String × String)) :
    ∀ (cs : List Char) (mode : Mode) (ns : List String),
      namesT mode cs = some ns →
      (∃ k, k ∈ ns ∧ lookupStr k m = none) →
      ∃ k', k' ∈ ns ∧ lookupStr k' m = none ∧
        runT m mode cs = .error (.missingKey k') := by
  intro cs
  induction cs with
  | nil =>
    intro mode ns h hex
    cases mode with
    | text =>
      simp [namesT] at h
      subst h
      obtain ⟨k, hk, _⟩ := hex
      cases hk
    | afterDollar => simp [namesT] at h
    | named acc =>
      simp [namesT] at h
      subst h
      obtain ⟨k, hk, hm⟩ := hex
      simp at hk
      subst hk
      exact ⟨String.mk acc, by simp, hm, by simp [runT, hm]⟩
    | braced acc => simp [namesT] at h
  | cons c cs ih =>
    intro mode ns h hex
    cases mode with
    | text =>
      by_cases hc : c = '$'
      · subst hc
        simp [namesT] at h
        obtain ⟨k', h1, h2, h3⟩ := ih .afterDollar ns h hex
        exact ⟨k', h1, h2, by simp [runT, h3]⟩
      · simp [namesT, hc] at h
        obtain ⟨k', h1, h2, h3⟩ := ih .text ns h hex
        exact ⟨k', h1, h2, by simp [runT, hc, h3]⟩
    | afterDollar =>
      by_cases hc : c = '$'
      · subst hc
        simp [namesT] at h
        obtain ⟨k', h1, h2, h3⟩ := ih .text ns h hex
        exact ⟨k', h1, h2, by simp [runT, h3]⟩
      · by_cases hb : c = '{'
        · subst hb
          simp [namesT, hc] at h
          obtain ⟨k', h1, h2, h3⟩ := ih (.braced []) ns h hex
          exact ⟨k', h1, h2, by simp [runT, hc, h3]⟩
        · by_cases hs : isIdStart c
          · simp [namesT, hc, hb, hs] at h
            obtain ⟨k', h1, h2, h3⟩ := ih (.named [c]) ns h hex
            exact ⟨k', h1, h2, by simp [runT, hc, hb, hs, h3]⟩
          · simp [namesT, hc, hb, hs] at h
    | named acc =>
      by_cases hic : isIdChar c
      · simp [namesT, hic] at h
        obtain ⟨k', h1, h2, h3⟩ := ih (.named (acc ++ [c])) ns h hex
        exact ⟨k', h1, h2, by simp [runT, hic, h3]⟩
      · by_cases hd : c = '$'
        · subst hd
          simp [namesT, hic] at h
          obtain ⟨ns', hns', rfl⟩ := h
          cases hl : lookupStr (String.mk acc) m with
          | none =>
            exact ⟨String.mk acc, by simp, hl, by simp [runT, hic, hl]⟩
          | some v =>
            obtain ⟨k, hk, hkm⟩ := hex
            have hk' : k ∈ ns' := by
              rcases List.mem_cons.mp hk with rfl | hmem
              · rw [hl] at hkm; cases hkm
              · exact hmem
            obtain ⟨k', h1, h2, h3⟩ := ih .afterDollar ns' hns' ⟨k, hk', hkm⟩
            exact ⟨k', List.mem_cons_of_mem _ h1, h2, by simp [runT, hic, hl, h3]⟩
        · simp [namesT, hic, hd] at h
          obtain ⟨ns', hns', rfl⟩ := h
          cases hl : lookupStr (String.mk acc) m with
          | none =>
            exact ⟨String.mk acc, by simp, hl, by simp [runT, hic, hd, hl]⟩
          | some v =>
            obtain ⟨k, hk, hkm⟩ := hex
            have hk' : k ∈ ns' := by
              rcases List.mem_cons.mp hk with rfl | hmem
              · rw [hl] at hkm; cases hkm
              · exact hmem
            obtain ⟨k', h1, h2, h3⟩ := ih .text ns' hns' ⟨k, hk', hkm⟩
            exact ⟨k', List.mem_cons_of_mem _ h1, h2, by simp [runT, hic, hd, hl, h3]⟩
    | braced acc =>
      by_cases hc : c = '}'
      · subst hc
        cases acc with
        | nil => simp [namesT] at h
        | cons a acc' =>
          by_cases hs : isIdStart a
          · simp [namesT, hs] at h
            obtain ⟨ns', hns', rfl⟩ := h
            cases hl : lookupStr (String.mk (a :: acc')) m with
            | none =>
              exact ⟨String.mk (a :: acc'), by simp, hl, by simp [runT, hs, hl]⟩
            | some v =>
              obtain ⟨k, hk, hkm⟩ := hex
              have hk' : k ∈ ns' := by
                rcases List.mem_cons.mp hk with rfl | hmem
                · rw [hl] at hkm; cases hkm
                · exact hmem
              obtain ⟨k', h1, h2, h3⟩ := ih .text ns' hns' ⟨k, hk', hkm⟩
              exact ⟨k', List.mem_cons_of_mem _ h1, h2, by simp [runT, hs, hl, h3]⟩
          · simp [namesT, hs] at h
      · by_cases hic : isIdChar c
        · simp [namesT, hc, hic] at h
          obtain ⟨k', h1, h2, h3⟩ := ih (.braced (acc ++ [c])) ns h hex
          exact ⟨k', h1, h2, by simp [runT, hc, hic, h3]⟩
        · simp [namesT, hc, hic] at h

/-- `SYSTEMD_TEMPLATE` of `deploy.py`, verbatim.  Note the literal `$PATH`
in the `Environment=` line: under `string.Template` it is itself a
placeholder named `PATH`. -/
def SYSTEMD_TEMPLATE : String :=
  "[Unit]\nDescription=$service_name service\nAfter=network.target\n\n[Service]\nUser=$user\nGroup=$group\nWorkingDirectory=$project_path\nExecStart=$exec_start\nRestart=always\nRestartSec=5\nEnvironment=PATH=$venv_path/bin:$PATH\n$environment_vars\n\n[Install]\nWantedBy=multi-user.target\n"

/-- `NGINX_TEMPLATE` of `deploy.py`, verbatim (API only, plain HTTP). -/
def NGINX_TEMPLATE : String :=
  "server \x7b\n    listen 80;\n    server_name $domain;\n\n    location / \x7b\n        proxy_pass http://localhost:$port;\n        proxy_set_header Host $host;\n        proxy_set_header X-Real-IP $remote_addr;\n        proxy_set_header X-Forwarded-For $proxy_add_x_forwarded_for;\n        proxy_set_header X-Forwarded-Proto $scheme;\n    \x7d\n\x7d\n"

/-- `NGINX_SSL_TEMPLATE` of `deploy.py`, verbatim (API with SSL). -/
def NGINX_SSL_TEMPLATE : String :=
  "server \x7b\n    listen 80;\n    server_name $domain;\n    return 301 https://$domain$request_uri;\n\x7d\n\nserver \x7b\n    listen 443 ssl;\n    server_name $domain;\n\n    ssl_certificate /etc/letsencrypt/live/$domain/fullchain.pem;\n    ssl_certificate_key /etc/letsencrypt/live/$domain/privkey.pem;\n    ssl_protocols TLSv1.2 TLSv1.3;\n    ssl_prefer_server_ciphers on;\n    ssl_ciphers ECDHE-RSA-AES256-GCM-SHA512:DHE-RSA-AES256-GCM-SHA512:ECDHE-RSA-AES256-GCM-SHA384:DHE-RSA-AES256-GCM-SHA384;\n\n    location / \x7b\n        proxy_pass http://localhost:$port;\n        proxy_set_header Host $host;\n        proxy_set_header X-Real-IP $remote_addr;\n        proxy_set_header X-Forwarded-For $proxy_add_x_forwarded_for;\n        proxy_set_header X-Forwarded-Proto $scheme;\n    \x7d\n\x7d\n"

/-- `NGINX_FRONTEND_TEMPLATE` of `deploy.py`, verbatim (frontend + API). -/
def NGINX_FRONTEND_TEMPLATE : String :=
  "server \x7b\n    listen 80;\n    server_name $domain;\n\n    # API endpoints\n    location $api_url_prefix/ \x7b\n        proxy_pass http://localhost:$port$api_url_prefix/;\n        proxy_set_header Host $host;\n        proxy_set_header X-Real-IP $remote_addr;\n        proxy_set_header X-Forwarded-For $proxy_add_x_forwarded_for;\n        proxy_set_header X-Forwarded-Proto $scheme;\n    \x7d\n\n    # Frontend static files\n    location $frontend_url_prefix \x7b\n        alias $frontend_path/;\n        try_files $uri $uri/ $frontend_url_prefix/index.html;\n        expires 1d;\n        add_header Cache-Control \"public\";\n    \x7d\n\x7d\n"

/-- `NGINX_FRONTEND_SSL_TEMPLATE` of `deploy.py`, verbatim
(frontend + API with SSL). -/
def NGINX_FRONTEND_SSL_TEMPLATE : String :=
  "server \x7b\n    listen 80;\n    server_name $domain;\n    return 301 https://$domain$request_uri;\n\x7d\n\nserver \x7b\n    listen 443 ssl;\n    server_name $domain;\n\n    ssl_certificate /etc/letsencrypt/live/$domain/fullchain.pem;\n    ssl_certificate_key /etc/letsencrypt/live/$domain/privkey.pem;\n    ssl_protocols TLSv1.2 TLSv1.3;\n    ssl_prefer_server_ciphers on;\n    ssl_ciphers ECDHE-RSA-AES256-GCM-SHA512:DHE-RSA-AES256-GCM-SHA512:ECDHE-RSA-AES256-GCM-SHA384:DHE-RSA-AES256-GCM-SHA384;\n\n    # API endpoints\n    location $api_url_prefix/ \x7b\n        proxy_pass http://localhost:$port$api_url_prefix/;\n        proxy_set_header Host $host;\n        proxy_set_header X-Real-IP $remote_addr;\n        proxy_set_header X-Forwarded-For $proxy_add_x_forwarded_for;\n        proxy_set_header X-Forwarded-Proto $scheme;\n    \x7d\n\n    # Frontend static files\n    location $frontend_url_prefix \x7b\n        alias $frontend_path/;\n        try_files $uri $uri/ $frontend_url_prefix/index.html;\n        expires 1d;\n        add_header Cache-Control \"public\";\n    \x7d\n\x7d\n"

/-- The placeholders of the systemd unit template, in scan order: the
supplied seven keys plus the stray `PATH` from the literal
`Environment=PATH=$venv_path/bin:$PATH` line. -/
theorem systemd_template_names : placeholderNames SYSTEMD_TEMPLATE =
    some ["service_name", "user", "group", "project_path", "exec_start",
          "venv_path", "PATH", "environment_vars"] := by rfl

/-- The substitution mapping `deploy_api` builds for the systemd template
(the keyword arguments of the `Template(SYSTEMD_TEMPLATE).substitute(...)`
call); the template's `$PATH` placeholder has no entry. -/
def systemdSubs (service_name user group project_path exec_start venv_path
    environment_vars : String) : List (String × String) :=
  [("service_name", service_name), ("user", user), ("group", group),
   ("project_path", project_path), ("exec_start", exec_start),
   ("venv_path", venv_path), ("environment_vars", environment_vars)]

/-- Rendering the systemd unit always fails with `KeyError('PATH')`,
whatever values the deployment supplies for the seven provided keys. -/
theorem systemd_render_fails (sn u g pp es vp ev : String) :
    substitute SYSTEMD_TEMPLATE (systemdSubs sn u g pp es vp ev) =
      .error (.missingKey "PATH") := by
  obtain ⟨k', hk', hnone, hrun⟩ :=
    runT_missing (systemdSubs sn u g pp es vp ev) SYSTEMD_TEMPLATE.data .text
      ["service_name", "user", "group", "project_path", "exec_start",
       "venv_path", "PATH", "environment_vars"]
      systemd_template_names ⟨"PATH", by simp, rfl⟩
  have hpath : k' = "PATH" := by
    simp at hk'
    rcases hk' with rfl | rfl | rfl | rfl | rfl | rfl | rfl | rfl
    · exact absurd hnone (Option.some_ne_none sn)
    · exact absurd hnone (Option.some_ne_none u)
    · exact absurd hnone (Option.some_ne_none g)
    · exact absurd hnone (Option.some_ne_none pp)
    · exact absurd hnone (Option.some_ne_none es)
    · exact absurd hnone (Option.some_ne_none vp)
    · rfl
    · exact absurd hnone (Option.some_ne_none ev)
  subst hpath
  simp [substitute, hrun]

/-- Errors raised inside `deploy_api` / caught by `cli.main`:
`valueError` models Python `ValueError` (bad project path, unsupported
framework), `commandError cmd` the `RuntimeError` raised by `_run_command`
when `cmd` exits non-zero, `templateError` a `string.Template` exception,
`envUnpackError line` the `ValueError` raised by unpacking
`line.strip().split('=', 1)` when the line has no `=`, and `indexError`
the `IndexError` from `...split()[0]` on empty `hostname -I` output. -/
inductive DeployError where
  | valueError (msg : String)
  | commandError (cmd : String)
  | templateError (e : RError)
  | envUnpackError (line : String)
  | indexError
deriving DecidableEq, Repr

/-- Python `str.strip` whitespace set (ASCII): space, tab, newline,
carriage return, vertical tab, form feed. -/
def pyWs (c : Char) : Bool :=
  c = ' ' || c = '\t' || c = '\n' || c = '\r' || c = '\x0b' || c = '\x0c'

/-- Python `str.strip()` on a character list: drop whitespace from both
ends. -/
def pyStrip (l : List Char) : List Char :=
  ((l.dropWhile pyWs).reverse.dropWhile pyWs).reverse

/-- Python `s.split('=', 1)`: `none` when `s` has no `=` (so unpacking into
`key, value` raises `ValueError`), otherwise the parts before and after the
first `=`. -/
def splitFirstEq : List Char → Option (List Char × List Char)
  | [] => none
  | c :: cs =>
    if c = '=' then some ([], cs)
    else (splitFirstEq cs).map (fun p => (c :: p.1, p.2))

/-- Python `line.startswith('#')` on the raw line. -/
def startsWithHash : List Char → Bool
  | '#' :: _ => true
  | _ => false

/-- The environment-file loop of `deploy_api` (lines 219-222): for each
line, if `line.strip()` is truthy and the raw line does not start with `#`,
split the stripped line on the first `=` and append
`Environment="key=value"\n`; a line without `=` raises `ValueError`. -/
def parseEnvLines : List (List Char) → Except DeployError (List Char)
  | [] => .ok []
  | l :: ls =>
    if !(pyStrip l).isEmpty && !startsWithHash l then
      match splitFirstEq (pyStrip l) with
      | none => .error (.envUnpackError (String.mk (pyStrip l)))
      | some (k, v) =>
        match parseEnvLines ls with
        | .ok rest =>
          .ok ("Environment=\"".data ++ k ++ '=' :: v ++ "\"\n".data ++ rest)
        | .error e => .error e
    else parseEnvLines ls

/-- Environment parsing on the file's lines as strings (the `environment_vars`
value accumulated by `deploy_api`). -/
def parseEnvFile (lines : List String) : Except DeployError String :=
  match parseEnvLines (lines.map String.data) with
  | .ok cs => .ok (String.mk cs)
  | .error e => .error e

/-- Characters of the stripped line come from the raw line. -/
theorem mem_pyStrip {c : Char} {l : List Char} (h : c ∈ pyStrip l) : c ∈ l := by
  unfold pyStrip at h
  rw [List.mem_reverse] at h
  have h1 := (List.dropWhile_sublist (l := (l.dropWhile pyWs).reverse)
    (p := pyWs)).subset h
  rw [List.mem_reverse] at h1
  exact (List.dropWhile_sublist (l := l) (p := pyWs)).subset h1

/-- A line without `=` cannot be split at an `=`. -/
theorem splitFirstEq_eq_none {l : List Char} (h : '=' ∉ l) :
    splitFirstEq l = none := by
  induction l with
  | nil => rfl
  | cons c cs ih =>
    have hc : c ≠ '=' := fun hc => h (hc ▸ List.mem_cons_self c cs)
    have hcs : '=' ∉ cs := fun hm => h (List.mem_cons_of_mem c hm)
    simp [splitFirstEq, hc, ih hcs]

/-- `os.path.basename` on POSIX: the characters after the last `/`. -/
def basename (p : String) : String :=
  String.mk (p.data.foldl (fun acc c => if c = '/' then [] else acc ++ [c]) [])

/-- `_get_exec_start` of `deploy.py`: the `ExecStart` command line for the
framework, or `ValueError(f"Unsupported framework: ...")` for any other
framework string. -/
def get_exec_start (framework project_path venv_path : String)
    (port workers timeout : Nat) : Except DeployError String :=
  if framework = "fastapi" then
    .ok (venv_path ++ "/bin/uvicorn main:app --host 0.0.0.0 --port " ++
      toString port ++ " --workers " ++ toString workers ++
      " --timeout-keep-alive " ++ toString timeout)
  else if framework = "flask" then
    .ok (venv_path ++ "/bin/gunicorn -w " ++ toString workers ++
      " -b 0.0.0.0:" ++ toString port ++ " -t " ++ toString timeout ++
      " app:app")
  else if framework = "django" then
    .ok (venv_path ++ "/bin/gunicorn -w " ++ toString workers ++
      " -b 0.0.0.0:" ++ toString port ++ " -t " ++ toString timeout ++
      " " ++ basename project_path ++ ".wsgi:application")
  else .error (.valueError ("Unsupported framework: " ++ framework))

/-- The substitution mapping for the API-only nginx templates
(`substitute(domain=domain, port=port)`; `str()` is applied to the `int`
port by `Template.substitute`). -/
def nginxSubs (domain : String) (port : Nat) : List (String × String) :=
  [("domain", domain), ("port", toString port)]

/-- The substitution mapping for the frontend nginx templates
(`substitute(domain=..., port=..., frontend_path=..., api_url_prefix=...,
frontend_url_prefix=...)`). -/
def nginxFrontendSubs (domain : String) (port : Nat)
    (frontend_path apiPref fePref : String) : List (String × String) :=
  [("domain", domain), ("port", toString port),
   ("frontend_path", frontend_path), ("api_url_prefix", apiPref),
   ("frontend_url_prefix", fePref)]

/-- The template-selection decision of `deploy_api` lines 268-299: frontend
first, then SSL. -/
def chooseNginxTemplate (has_frontend ssl_exists : Bool) : String :=
  if has_frontend then
    if ssl_exists then NGINX_FRONTEND_SSL_TEMPLATE else NGINX_FRONTEND_TEMPLATE
  else
    if ssl_exists then NGINX_SSL_TEMPLATE else NGINX_TEMPLATE

/-- The closed set of `--framework` values accepted by the CLI parser
(`argparse` `choices=["flask", "fastapi", "django"]`). -/
inductive Framework where
  | flask
  | fastapi
  | django
deriving DecidableEq, Repr

/-- The framework string the parser stores for each accepted choice. -/
def frameworkArg : Framework → String
  | .flask => "flask"
  | .fastapi => "fastapi"
  | .django => "django"

/-- Argparse validation of `--framework`: a value is accepted exactly when
it is one of the three choices (otherwise argparse rejects the invocation). -/
def parseFrameworkChoice (s : String) : Option Framework :=
  if s = "flask" then some .flask
  else if s = "fastapi" then some .fastapi
  else if s = "django" then some .django
  else none

/-- Observable side effects of one orchestration run: `ranCommand cmd` is an
execution of the shell command `cmd` (`_run_command` or `subprocess.run`),
`wroteTempFile content` is the `tempfile` write that precedes each
`sudo mv` of a rendered configuration file. -/
inductive Event where
  | ranCommand (cmd : String)
  | wroteTempFile (content : String)
deriving DecidableEq, Repr

/-- True exactly for the temp-file write events (the only file writes the
deployment itself performs; the `sudo mv` commands that install them can
only run after such a write). -/
def isWriteEvent : Event → Bool
  | .wroteTempFile _ => true
  | .ranCommand _ => false

/-- True exactly for failed results (a raised exception). -/
def exceptFailed : Except DeployError Unit → Bool
  | .error _ => true
  | .ok _ => false

/-- Oracle for everything `deploy_api` / `cli.main` observe about the host:
path predicates, the exit status and stripped stdout of each shell command,
the lines of the environment file, the `tempfile` name, the probe results
and interactive answer inside `check_dependencies`, and the stdout of
`hostname -I`.  `abspath` abstracts `os.path.abspath` (it depends on the
process working directory). -/
structure World where
  abspath : String → String
  isDir : String → Bool
  isFile : String → Bool
  pathExists : String → Bool
  runOk : String → Bool
  runOut : String → String
  readLines : String → List String
  tmpPath : String
  nginxBinFound : Bool
  certbotBinFound : Bool
  dpkgBinFound : Bool
  dpkgStatusOk : Bool
  installAnswer : String
  aptUpdateOk : Bool
  aptInstallOk : Bool
  hostnameOut : String

/-- The parameters of `deploy_api` (its Python signature); `enable_db` and
`verbose` are omitted: the former is never read by `deploy.py`, the latter
only affects logging.  `frontendUrlPref` and `apiUrlPref` embed the source
parameters `frontend_url_prefix` and `api_url_prefix`. -/
structure Request where
  project_path : String
  service_name : String
  framework : String
  workers : Nat
  timeout : Nat
  port : Nat
  venv_name : String
  domain : Option String
  env_file : Option String
  frontend_path : Option String
  frontendUrlPref : String
  apiUrlPref : String

/-- `os.path.join` on POSIX for two components. -/
def pathJoin (a b : String) : String :=
  if b.startsWith "/" then b
  else if a = "" then b
  else if a.endsWith "/" then a ++ b
  else a ++ "/" ++ b

/-- The SSL-probe command of `deploy_api` line 259. -/
def sslCheckCmd (d : String) : String :=
  "sudo test -d /etc/letsencrypt/live/" ++ d ++ " && echo 'yes' || echo 'no'"

/-- The nginx virtual-host text `deploy_api` computes for domain `d`
(lines 261-299): frontend presence is `frontend_path and
os.path.isdir(frontend_path)`, then one of the four templates is rendered
with the mapping of the corresponding `substitute` call. -/
def nginxContent (w : World) (r : Request) (d : String) (ssl_exists : Bool) :
    Except RError String :=
  match r.frontend_path with
  | some fp =>
    if w.isDir fp then
      substitute (chooseNginxTemplate true ssl_exists)
        (nginxFrontendSubs d r.port (w.abspath fp) r.apiUrlPref
          r.frontendUrlPref)
    else
      substitute (chooseNginxTemplate false ssl_exists) (nginxSubs d r.port)
  | none =>
    substitute (chooseNginxTemplate false ssl_exists) (nginxSubs d r.port)

/-- Final phase of `deploy_api` (lines 327-338): daemon-reload, enable,
restart, status query. -/
def startService (w : World) (r : Request) (tr : List Event) :
    List Event × Except DeployError Unit :=
  let c1 := "sudo systemctl daemon-reload"
  let tr := tr ++ [Event.ranCommand c1]
  if w.runOk c1 then
    let c2 := "sudo systemctl enable " ++ r.service_name
    let tr := tr ++ [Event.ranCommand c2]
    if w.runOk c2 then
      let c3 := "sudo systemctl restart " ++ r.service_name
      let tr := tr ++ [Event.ranCommand c3]
      if w.runOk c3 then
        let c4 := "sudo systemctl status " ++ r.service_name ++ " --no-pager"
        let tr := tr ++ [Event.ranCommand c4]
        if w.runOk c4 then (tr, .ok ()) else (tr, .error (.commandError c4))
      else (tr, .error (.commandError c3))
    else (tr, .error (.commandError c2))
  else (tr, .error (.commandError c1))

/-- Nginx validation, reload and certificate acquisition (lines 316-325),
followed by the service-start phase. -/
def afterEnableSite (w : World) (r : Request) (d : String)
    (ssl_exists : Bool) (tr : List Event) :
    List Event × Except DeployError Unit :=
  let c1 := "sudo nginx -t"
  let tr := tr ++ [Event.ranCommand c1]
  if w.runOk c1 then
    let c2 := "sudo systemctl reload nginx"
    let tr := tr ++ [Event.ranCommand c2]
    if w.runOk c2 then
      if ssl_exists then startService w r tr
      else
        let c3 := "sudo certbot --nginx -d " ++ d ++
          " --non-interactive --agree-tos --email admin@" ++ d
        let tr := tr ++ [Event.ranCommand c3]
        if w.runOk c3 then startService w r tr
        else (tr, .error (.commandError c3))
    else (tr, .error (.commandError c2))
  else (tr, .error (.commandError c1))

/-- The domain branch of `deploy_api` (lines 253-325): probe for an
existing certificate, render the nginx virtual host, install it, enable the
site if it is not already enabled, then validate/reload/acquire. -/
def nginxPhase (w : World) (r : Request) (d : String) (tr : List Event) :
    List Event × Except DeployError Unit :=
  let cS := sslCheckCmd d
  let tr := tr ++ [Event.ranCommand cS]
  if w.runOk cS then
    let ssl_exists : Bool := w.runOut cS = "yes"
    match nginxContent w r d ssl_exists with
    | .error e => (tr, .error (.templateError e))
    | .ok content =>
      let nginx_file := "/etc/nginx/sites-available/" ++ r.service_name
      let tr := tr ++ [Event.wroteTempFile content]
      let cM := "sudo mv " ++ w.tmpPath ++ " " ++ nginx_file
      let tr := tr ++ [Event.ranCommand cM]
      if w.runOk cM then
        let cC := "sudo chmod 644 " ++ nginx_file
        let tr := tr ++ [Event.ranCommand cC]
        if w.runOk cC then
          let sites_enabled := "/etc/nginx/sites-enabled/" ++ r.service_name
          if w.pathExists sites_enabled then
            afterEnableSite w r d ssl_exists tr
          else
            let cL := "sudo ln -s " ++ nginx_file ++ " " ++ sites_enabled
            let tr := tr ++ [Event.ranCommand cL]
            if w.runOk cL then afterEnableSite w r d ssl_exists tr
            else (tr, .error (.commandError cL))
        else (tr, .error (.commandError cC))
      else (tr, .error (.commandError cM))
  else (tr, .error (.commandError cS))

/-- `deploy_api` of `deploy.py`: validate the project path, resolve
user/group via `whoami` and `id -gn`, parse the optional environment file,
build the `ExecStart` line, render the systemd unit, install it, run the
nginx phase when a domain is given, then enable and start the service.
The returned trace lists the attempted commands and temp-file writes in
order; the result is the raised exception, if any. -/
def deploy_api (w : World) (r : Request) :
    List Event × Except DeployError Unit :=
  let project_path := w.abspath r.project_path
  if w.isDir project_path then
    let tr := [Event.ranCommand "whoami"]
    if w.runOk "whoami" then
      let user := w.runOut "whoami"
      let tr := tr ++ [Event.ranCommand "id -gn"]
      if w.runOk "id -gn" then
        let group := w.runOut "id -gn"
        let envRes :=
          match r.env_file with
          | none => Except.ok ""
          | some f =>
            if w.isFile (pathJoin project_path f) then
              parseEnvFile (w.readLines (pathJoin project_path f))
            else Except.ok ""
        match envRes with
        | .error e => (tr, .error e)
        | .ok environment_vars =>
          let venv_path := pathJoin project_path r.venv_name
          match get_exec_start r.framework project_path venv_path r.port
              r.workers r.timeout with
          | .error e => (tr, .error e)
          | .ok exec_start =>
            match substitute SYSTEMD_TEMPLATE
                (systemdSubs r.service_name user group project_path
                  exec_start venv_path environment_vars) with
            | .error e => (tr, .error (.templateError e))
            | .ok systemd_content =>
              let service_file :=
                "/etc/systemd/system/" ++ r.service_name ++ ".service"
              let tr := tr ++ [Event.wroteTempFile systemd_content]
              let cM := "sudo mv " ++ w.tmpPath ++ " " ++ service_file
              let tr := tr ++ [Event.ranCommand cM]
              if w.runOk cM then
                let cC := "sudo chmod 644 " ++ service_file
                let tr := tr ++ [Event.ranCommand cC]
                if w.runOk cC then
                  match r.domain with
                  | some d => nginxPhase w r d tr
                  | none => startService w r tr
                else (tr, .error (.commandError cC))
              else (tr, .error (.commandError cM))
      else (tr, .error (.commandError "id -gn"))
    else (tr, .error (.commandError "whoami"))
  else
    ([], .error (.valueError ("Project path does not exist: " ++ project_path)))

/-- The missing-package list collected by `cli.check_dependencies`:
`nginx` / `certbot` are missing when their binaries raise
`FileNotFoundError` (the probes pass `check=False`, so a non-zero exit is
ignored); `python3-certbot-nginx` is missing when `dpkg` is absent or
`dpkg -l` exits non-zero. -/
def missingPackages (w : World) : List String :=
  (if w.nginxBinFound then [] else ["nginx"]) ++
  (if w.certbotBinFound then [] else ["certbot"]) ++
  (if w.dpkgBinFound && w.dpkgStatusOk then [] else ["python3-certbot-nginx"])

/-- Python `str.lower()` (ASCII model, character by character). -/
def pyToLower (s : String) : String :=
  String.mk (s.data.map Char.toLower)

/-- `cli.check_dependencies`: `true` when nothing is missing, or when the
user answers `y` (after `.lower().strip()`) and both `apt-get update` and
`apt-get install` succeed; `false` otherwise. -/
def check_dependencies (w : World) : Bool :=
  if (missingPackages w).isEmpty then true
  else if String.mk (pyStrip (pyToLower w.installAnswer).data) = "y" then
    w.aptUpdateOk && w.aptInstallOk
  else false

/-- Python `str.split()` (no separator): maximal runs of non-whitespace. -/
def splitWsAux (acc : List Char) : List Char → List (List Char)
  | [] => if acc.isEmpty then [] else [acc.reverse]
  | c :: cs =>
    if pyWs c then
      if acc.isEmpty then splitWsAux [] cs
      else acc.reverse :: splitWsAux [] cs
    else splitWsAux (c :: acc) cs

/-- `s.strip().split()` applied to command output (the `server_ip`
computation in `cli.main`). -/
def pySplitWords (s : String) : List String :=
  (splitWsAux [] s.data).map String.mk

/-- The CLI invocation after argparse has accepted it: required flags, the
closed `Framework` choice, and the optional flags with their argparse
defaults supplied by the caller.  `enable_db` and `verbose` are omitted as
in `Request`. -/
structure CliArgs where
  project_path : String
  service_name : String
  framework : Framework
  port : Nat
  venv_name : String
  workers : Nat
  timeout : Nat
  domain : Option String
  env_file : Option String
  frontend_path : Option String
  frontendUrlPref : String
  apiUrlPref : String

/-- The `deploy_api(...)` call `cli.main` makes from the parsed arguments. -/
def toRequest (a : CliArgs) : Request :=
  ⟨a.project_path, a.service_name, frameworkArg a.framework, a.workers,
   a.timeout, a.port, a.venv_name, a.domain, a.env_file, a.frontend_path,
   a.frontendUrlPref, a.apiUrlPref⟩

/-- `cli.main` after argument parsing: dependency check, virtual-environment
check, `deploy_api`, then the `hostname -I` server-IP lookup; any exception
is caught, logged and turned into exit code 1.  Returns the event trace,
the process exit code, and the surfaced error (the exception whose message
`main` logs), if any. -/
def cliMain (w : World) (a : CliArgs) :
    List Event × Nat × Option DeployError :=
  if check_dependencies w then
    let venv_path := pathJoin a.project_path a.venv_name
    if w.isDir venv_path then
      match deploy_api w (toRequest a) with
      | (tr, .error e) => (tr, 1, some e)
      | (tr, .ok ()) =>
        let tr := tr ++ [Event.ranCommand "hostname -I"]
        match pySplitWords w.hostnameOut with
        | [] => (tr, 1, some .indexError)
        | _ :: _ => (tr, 0, none)
    else ([], 1, none)
  else ([], 1, none)

/-- Every run of `deploy_api` stops with an exception before writing any
file: the systemd render is reached at the latest, and it always raises
`KeyError('PATH')` (see `systemd_render_fails`), so neither temp-file write
nor any `sudo mv` after it can occur. -/
theorem deploy_no_writes_and_fails (w : World) (r : Request) :
    (deploy_api w r).1.any isWriteEvent = false ∧
      exceptFailed (deploy_api w r).2 = true := by
  unfold deploy_api
  by_cases h1 : w.isDir (w.abspath r.project_path)
  · simp only [h1, if_true]
    by_cases h2 : w.runOk "whoami"
    · simp only [h2, if_true]
      by_cases h3 : w.runOk "id -gn"
      · simp only [h3, if_true]
        cases henv : (match r.env_file with
          | none => Except.ok ""
          | some f =>
            if w.isFile (pathJoin (w.abspath r.project_path) f) then
              parseEnvFile (w.readLines (pathJoin (w.abspath r.project_path) f))
            else Except.ok "") with
        | error e => simp [henv, isWriteEvent, exceptFailed]
        | ok environment_vars =>
          simp only [henv]
          cases hex : get_exec_start r.framework (w.abspath r.project_path)
              (pathJoin (w.abspath r.project_path) r.venv_name) r.port
              r.workers r.timeout with
          | error e => simp [isWriteEvent, exceptFailed]
          | ok exec_start =>
            simp only [systemd_render_fails]
            simp [isWriteEvent, exceptFailed]
      · simp [h3, isWriteEvent, exceptFailed]
    · simp [h2, isWriteEvent, exceptFailed]
  · simp [h1, isWriteEvent, exceptFailed]

/-- The environment loop only raises the unpacking `ValueError`. -/
theorem parseEnvLines_error_shape (ls : List (List Char)) :
    ∀ e, parseEnvLines ls = .error e → ∃ s, e = .envUnpackError s := by
  induction ls with
  | nil => intro e h; simp [parseEnvLines] at h
  | cons l ls ih =>
    intro e h
    by_cases hc : (!(pyStrip l).isEmpty && !startsWithHash l) = true
    · cases hs : splitFirstEq (pyStrip l) with
      | none =>
        simp only [parseEnvLines, hc, if_true, hs] at h
        exact ⟨String.mk (pyStrip l), by injection h with h2; exact h2.symm⟩
      | some kv =>
        obtain ⟨k, v⟩ := kv
        cases hr : parseEnvLines ls with
        | ok rest =>
          simp only [parseEnvLines, hc, if_true, hs, hr] at h
          simp at h
        | error e2 =>
          simp only [parseEnvLines, hc, if_true, hs, hr] at h
          injection h with h2
          exact h2 ▸ ih e2 hr
    · simp only [parseEnvLines, hc, if_false] at h
      exact ih e h

/-- The value `deploy_api` computes for `environment_vars` only fails with
the unpacking `ValueError`. -/
theorem envRes_error_shape (w : World) (pp : String) (ef : Option String)
    (e : DeployError) :
    (match ef with
     | none => Except.ok ""
     | some f =>
       if w.isFile (pathJoin pp f) then
         parseEnvFile (w.readLines (pathJoin pp f))
       else Except.ok "") = .error e →
    ∃ s, e = .envUnpackError s := by
  cases ef with
  | none => intro h; simp at h
  | some f =>
    by_cases hf : w.isFile (pathJoin pp f)
    · simp only [hf, if_true]
      intro h
      unfold parseEnvFile at h
      cases hr : parseEnvLines ((w.readLines (pathJoin pp f)).map String.data) with
      | ok cs => rw [hr] at h; simp at h
      | error e2 =>
        rw [hr] at h
        injection h with h2
        exact h2 ▸ parseEnvLines_error_shape _ e2 hr
    · simp only [hf, if_false]
      intro h
      simp at h

/-- `_get_exec_start` only raises `ValueError`. -/
theorem get_exec_start_error_shape (fw pp vp : String)
    (port workers timeout : Nat) (e : DeployError) :
    get_exec_start fw pp vp port workers timeout = .error e →
    ∃ msg, e = .valueError msg := by
  unfold get_exec_start
  split_ifs <;> intro h
  · simp at h
  · simp at h
  · simp at h
  · exact ⟨"Unsupported framework: " ++ fw, by injection h with h2; exact h2.symm⟩

/-- When `deploy_api` raises the `RuntimeError` of `_run_command` for a
command, that command is the last event of the trace: nothing after the
failed command was attempted. -/
theorem deploy_commandError_last (w : World) (r : Request) (c : String) :
    (deploy_api w r).2 = .error (.commandError c) →
    (deploy_api w r).1.getLast? = some (.ranCommand c) := by
  unfold deploy_api
  by_cases h1 : w.isDir (w.abspath r.project_path)
  · simp only [h1, if_true]
    by_cases h2 : w.runOk "whoami"
    · simp only [h2, if_true]
      by_cases h3 : w.runOk "id -gn"
      · simp only [h3, if_true]
        cases henv : (match r.env_file with
          | none => Except.ok ""
          | some f =>
            if w.isFile (pathJoin (w.abspath r.project_path) f) then
              parseEnvFile (w.readLines (pathJoin (w.abspath r.project_path) f))
            else Except.ok "") with
        | error e =>
          simp only [henv]
          intro h
          simp at h
          obtain ⟨s, hs⟩ := envRes_error_shape w (w.abspath r.project_path)
            r.env_file e henv
          rw [hs] at h
          simp at h
        | ok environment_vars =>
          simp only [henv]
          cases hex : get_exec_start r.framework (w.abspath r.project_path)
              (pathJoin (w.abspath r.project_path) r.venv_name) r.port
              r.workers r.timeout with
          | error e =>
            intro h
            simp at h
            obtain ⟨msg, hm⟩ := get_exec_start_error_shape _ _ _ _ _ _ e hex
            rw [hm] at h
            simp at h
          | ok exec_start =>
            simp only [systemd_render_fails]
            intro h
            simp at h
      · simp only [h3, if_false]
        intro h
        simp at h
        simp [← h]
    · simp only [h2, if_false]
      intro h
      simp at h
      simp [← h]
  · simp only [h1, if_false]
    intro h
    simp at h

/-- C1: for a deployment with a domain the code does select exactly the
variant of the §4.5 table (frontend × certificate), but rendering each
variant with the substitution map the code supplies fails with a missing-key
error on the first nginx runtime variable of the template (`$host`,
`$request_uri`): `string.Template` treats those as placeholders, so no
configuration text containing the domain and port is ever produced.  This
contradicts the claim's rendered-text part and documents the code bug at
the concrete input domain `example.com`, port 8000. -/
theorem c1_variant_selection_but_render_fails :
    chooseNginxTemplate false false = NGINX_TEMPLATE ∧
    chooseNginxTemplate false true = NGINX_SSL_TEMPLATE ∧
    chooseNginxTemplate true false = NGINX_FRONTEND_TEMPLATE ∧
    chooseNginxTemplate true true = NGINX_FRONTEND_SSL_TEMPLATE ∧
    substitute NGINX_TEMPLATE (nginxSubs "example.com" 8000) =
      .error (.missingKey "host") ∧
    substitute NGINX_SSL_TEMPLATE (nginxSubs "example.com" 8000) =
      .error (.missingKey "request_uri") ∧
    substitute NGINX_FRONTEND_TEMPLATE
      (nginxFrontendSubs "example.com" 8000 "/srv/frontend" "/api" "/") =
      .error (.missingKey "host") ∧
    substitute NGINX_FRONTEND_SSL_TEMPLATE
      (nginxFrontendSubs "example.com" 8000 "/srv/frontend" "/api" "/") =
      .error (.missingKey "request_uri") :=
  ⟨rfl, rfl, rfl, rfl, rfl, rfl, rfl, rfl⟩

/-- C2: for each of the three supported frameworks, `_get_exec_start`
produces exactly the documented command line: uvicorn (ASGI) bound to
`0.0.0.0` with `--port`, `--workers` and `--timeout-keep-alive` for
fastapi; gunicorn (WSGI) with `-w`, `-b 0.0.0.0:port`, `-t` targeting
`app:app` for flask; the same gunicorn command targeting
`<basename(project_path)>.wsgi:application` for django. -/
theorem c2_exec_start_commands (pp vp : String)
    (port workers timeout : Nat) :
    get_exec_start "fastapi" pp vp port workers timeout =
      .ok (vp ++ "/bin/uvicorn main:app --host 0.0.0.0 --port " ++
        toString port ++ " --workers " ++ toString workers ++
        " --timeout-keep-alive " ++ toString timeout) ∧
    get_exec_start "flask" pp vp port workers timeout =
      .ok (vp ++ "/bin/gunicorn -w " ++ toString workers ++
        " -b 0.0.0.0:" ++ toString port ++ " -t " ++ toString timeout ++
        " app:app") ∧
    get_exec_start "django" pp vp port workers timeout =
      .ok (vp ++ "/bin/gunicorn -w " ++ toString workers ++
        " -b 0.0.0.0:" ++ toString port ++ " -t " ++ toString timeout ++
        " " ++ basename pp ++ ".wsgi:application") :=
  ⟨rfl, rfl, rfl⟩

/-- C3: rendering any template that references a substitution key not in
the supplied map fails with a missing-key error (`KeyError`) naming a
referenced, unsupplied key, and hence returns no output text at all; and
every template of this program is covered (each scans to a well-formed
placeholder list). -/
theorem c3_missing_key_fails :
    (∀ (t : String) (m : List (String × String)) (ns : List String)
      (k : String),
      placeholderNames t = some ns → k ∈ ns → lookupStr k m = none →
      ∃ k', lookupStr k' m = none ∧
        substitute t m = .error (.missingKey k')) ∧
    (placeholderNames SYSTEMD_TEMPLATE).isSome = true ∧
    (placeholderNames NGINX_TEMPLATE).isSome = true ∧
    (placeholderNames NGINX_SSL_TEMPLATE).isSome = true ∧
    (placeholderNames NGINX_FRONTEND_TEMPLATE).isSome = true ∧
    (placeholderNames NGINX_FRONTEND_SSL_TEMPLATE).isSome = true := by
  refine ⟨?_, rfl, rfl, rfl, rfl, rfl⟩
  intro t m ns k hns hk hnone
  obtain ⟨k', _, h2, h3⟩ := runT_missing m t.data .text ns hns ⟨k, hk, hnone⟩
  exact ⟨k', h2, by simp [substitute, h3]⟩

/-- Witness for C3 at the concrete template `$x` and the empty map. -/
theorem c3_missing_key_fails_witness :
    ∃ k', lookupStr k' [] = none ∧
      substitute "$x" [] = .error (.missingKey k') :=
  c3_missing_key_fails.1 "$x" [] ["x"] "x" rfl (by simp) rfl

/-- C4: the systemd unit template contains the placeholder `$PATH` (from
the literal `Environment=PATH=$venv_path/bin:$PATH` line) which the
substitution map of `deploy_api` never supplies, so rendering the unit
raises the missing-key error on `PATH` for every input, and consequently no
run of `deploy_api` ever reaches a file-write step (no temp file for the
unit — nor for anything after it — is ever written). -/
theorem c4_systemd_render_always_missing_path :
    (∀ sn u g pp es vp ev,
      substitute SYSTEMD_TEMPLATE (systemdSubs sn u g pp es vp ev) =
        .error (.missingKey "PATH")) ∧
    (∀ w r, (deploy_api w r).1.any isWriteEvent = false) :=
  ⟨systemd_render_fails, fun w r => (deploy_no_writes_and_fails w r).1⟩

/-- C5: any framework value outside `fastapi`/`flask`/`django` makes
`_get_exec_start` raise `ValueError("Unsupported framework: ...")` (the
spec's `UnsupportedFrameworkError`), and a `deploy_api` run with such a
framework performs no file write and raises: neither the supervisor unit
nor any proxy configuration is written. -/
theorem c5_unsupported_framework :
    (∀ (fw pp vp : String) (port workers timeout : Nat),
      fw ≠ "fastapi" → fw ≠ "flask" → fw ≠ "django" →
      get_exec_start fw pp vp port workers timeout =
        .error (.valueError ("Unsupported framework: " ++ fw))) ∧
    (∀ w r, r.framework ≠ "fastapi" → r.framework ≠ "flask" →
      r.framework ≠ "django" →
      (deploy_api w r).1.any isWriteEvent = false ∧
        exceptFailed (deploy_api w r).2 = true) := by
  constructor
  · intro fw pp vp port workers timeout h1 h2 h3
    simp [get_exec_start, h1, h2, h3]
  · intro w r _ _ _
    exact deploy_no_writes_and_fails w r

/-- A host oracle on which every probe succeeds: paths exist, every command
exits 0 with empty output, the environment file is empty, all dependencies
are present, and `hostname -I` reports an address. -/
def demoWorld : World :=
  ⟨id, fun _ => true, fun _ => false, fun _ => true, fun _ => true,
   fun _ => "", fun _ => [], "/tmp/tmpabc123", true, true, true, true,
   "y", true, true, "203.0.113.7 "⟩

/-- A syntactically valid request naming an unsupported framework. -/
def railsRequest : Request :=
  ⟨"/srv/app", "demo", "rails", 2, 30, 8000, "venv", none, none, none,
   "/", "/api"⟩

/-- Witness for C5 at framework `rails`. -/
theorem c5_unsupported_framework_witness :
    get_exec_start "rails" "/srv/app" "/srv/app/venv" 8000 2 30 =
      .error (.valueError ("Unsupported framework: " ++ "rails")) ∧
    (deploy_api demoWorld railsRequest).1.any isWriteEvent = false ∧
    exceptFailed (deploy_api demoWorld railsRequest).2 = true :=
  ⟨c5_unsupported_framework.1 "rails" "/srv/app" "/srv/app/venv" 8000 2 30
      (by decide) (by decide) (by decide),
   c5_unsupported_framework.2 demoWorld railsRequest
      (by decide) (by decide) (by decide)⟩

/-- C6: the environment file with lines `A=1`, `# comment`, a blank line
and `B=two=three` yields exactly the two directives
`Environment="A=1"` and `Environment="B=two=three"` — the comment and blank
lines are ignored and the second value keeps everything after the first
`=`. -/
theorem c6_env_file_two_directives :
    parseEnvFile ["A=1", "# comment", "", "B=two=three"] =
      .ok "Environment=\"A=1\"\nEnvironment=\"B=two=three\"\n" := rfl

/-- C7: the CLI orchestration halts at the first failing step and exits 1.
Exit codes are only 0 or 1; exit 0 holds exactly when the dependency check,
the virtual-environment check, `deploy_api` and the server-IP lookup all
succeed; a failed dependency check or missing virtual environment stops the
run with no deployment event and exit 1; an exception in `deploy_api` is
surfaced (`main` logs exactly that error), the exit code is 1, and the
trace is exactly `deploy_api`'s own truncated trace — nothing after it
runs; and when the raised exception is a failed external command, that
command is the last event of the trace, i.e. no subsequent step executed. -/
theorem c7_halt_on_failure_and_exit_codes (w : World) (a : CliArgs) :
    ((cliMain w a).2.1 = 0 ∨ (cliMain w a).2.1 = 1) ∧
    ((cliMain w a).2.1 = 0 ↔
      (check_dependencies w = true ∧
       w.isDir (pathJoin a.project_path a.venv_name) = true ∧
       (deploy_api w (toRequest a)).2 = .ok () ∧
       (pySplitWords w.hostnameOut).isEmpty = false)) ∧
    (check_dependencies w = false → cliMain w a = ([], 1, none)) ∧
    (check_dependencies w = true →
      w.isDir (pathJoin a.project_path a.venv_name) = false →
      cliMain w a = ([], 1, none)) ∧
    (∀ e, check_dependencies w = true →
      w.isDir (pathJoin a.project_path a.venv_name) = true →
      (deploy_api w (toRequest a)).2 = .error e →
      cliMain w a = ((deploy_api w (toRequest a)).1, 1, some e)) ∧
    (∀ c, (deploy_api w (toRequest a)).2 = .error (.commandError c) →
      (deploy_api w (toRequest a)).1.getLast? = some (.ranCommand c)) := by
  refine ⟨?_, ?_, ?_, ?_, ?_, fun c => deploy_commandError_last w (toRequest a) c⟩
  all_goals
    unfold cliMain
  · by_cases hdep : check_dependencies w
    · simp only [hdep, if_true]
      by_cases hv : w.isDir (pathJoin a.project_path a.venv_name)
      · simp only [hv, if_true]
        rcases hdp : deploy_api w (toRequest a) with ⟨tr, res⟩
        cases res with
        | error e => simp
        | ok u =>
          cases u
          cases hw : pySplitWords w.hostnameOut with
          | nil => simp
          | cons ip rest => simp
      · simp [hv]
    · simp [hdep]
  · by_cases hdep : check_dependencies w
    · by_cases hv : w.isDir (pathJoin a.project_path a.venv_name)
      · rcases hdp : deploy_api w (toRequest a) with ⟨tr, res⟩
        cases res with
        | error e => simp [hdep, hv, hdp]
        | ok u =>
          cases u
          cases hw : pySplitWords w.hostnameOut with
          | nil => simp [hdep, hv, hdp, hw]
          | cons ip rest => simp [hdep, hv, hdp, hw]
      · simp [hdep, hv]
    · simp [hdep]
  · intro hdep
    simp [hdep]
  · intro hdep hv
    simp [hdep, hv]
  · intro e hdep hv hdp
    simp only [hdep, if_true, hv]
    rcases hpair : deploy_api w (toRequest a) with ⟨tr, res⟩
    rw [hpair] at hdp
    simp at hdp
    subst hdp
    simp

/-- A host where the dependency check fails: nginx is absent and the user
declines installation. -/
def depFailWorld : World :=
  ⟨id, fun _ => true, fun _ => false, fun _ => true, fun _ => true,
   fun _ => "", fun _ => [], "/tmp/tmpabc123", false, true, true, true,
   "n", true, true, "203.0.113.7 "⟩

/-- A host where everything succeeds except the `whoami` command. -/
def whoamiFailWorld : World :=
  ⟨id, fun _ => true, fun _ => false, fun _ => true,
   fun c => !(c == "whoami"), fun _ => "", fun _ => [], "/tmp/tmpabc123",
   true, true, true, true, "y", true, true, "203.0.113.7 "⟩

/-- A CLI invocation with the required flags and argparse defaults. -/
def demoArgs : CliArgs :=
  ⟨"/srv/app", "demo", .flask, 8000, "venv", 2, 120, none, none, none,
   "/", "/api"⟩

/-- Witness for C7: a failed dependency check exits 1 with no deployment
step run; a failed `whoami` surfaces `CommandError("whoami")`, exits 1, and
`whoami` is the last event of the trace. -/
theorem c7_halt_on_failure_witness :
    cliMain depFailWorld demoArgs = ([], 1, none) ∧
    cliMain whoamiFailWorld demoArgs =
      ([Event.ranCommand "whoami"], 1, some (.commandError "whoami")) ∧
    (deploy_api whoamiFailWorld (toRequest demoArgs)).1.getLast? =
      some (.ranCommand "whoami") := by
  refine ⟨?_, ?_, ?_⟩
  · exact (c7_halt_on_failure_and_exit_codes depFailWorld demoArgs).2.2.1
      (by decide)
  · have h := (c7_halt_on_failure_and_exit_codes whoamiFailWorld
      demoArgs).2.2.2.2.1 (.commandError "whoami") (by decide) (by decide)
      (by rfl)
    rw [h]
    decide
  · exact (c7_halt_on_failure_and_exit_codes whoamiFailWorld
      demoArgs).2.2.2.2.2 "whoami" (by rfl)

/-- A syntactically valid request: flask service `demo` at `/srv/app`. -/
def demoRequest : Request :=
  ⟨"/srv/app", "demo", "flask", 2, 30, 8000, "venv", none, none, none,
   "/", "/api"⟩

/-- C8: re-running the orchestration can never reproduce the claimed
idempotent overwrite because no run writes any file at all: even on a host
where every command succeeds, `deploy_api` stops with `KeyError('PATH')`
right after resolving user and group, and in general every run of
`deploy_api` on any host raises before any temp-file write.  A second
identical run therefore repeats the identical failure instead of
overwriting two configuration files. -/
theorem c8_no_run_ever_writes :
    (deploy_api demoWorld demoRequest).2 =
      .error (.templateError (.missingKey "PATH")) ∧
    (deploy_api demoWorld demoRequest).1 =
      [Event.ranCommand "whoami", Event.ranCommand "id -gn"] ∧
    (∀ w r, (deploy_api w r).1.any isWriteEvent = false ∧
      exceptFailed (deploy_api w r).2 = true) :=
  ⟨rfl, rfl, fun w r => deploy_no_writes_and_fails w r⟩

/-- C9: every framework value the CLI parser accepts is one of the three
choices, and for each of them `_get_exec_start` returns a command line —
the unsupported-framework branch is unreachable through the CLI entry
point. -/
theorem c9_cli_framework_closed (s : String) (fw : Framework)
    (pp vp : String) (port workers timeout : Nat) :
    parseFrameworkChoice s = some fw →
    ∃ cmd, get_exec_start (frameworkArg fw) pp vp port workers timeout =
      .ok cmd := by
  intro _
  cases fw with
  | flask => exact ⟨_, rfl⟩
  | fastapi => exact ⟨_, rfl⟩
  | django => exact ⟨_, rfl⟩

/-- Witness for C9 at the accepted value `flask`. -/
theorem c9_cli_framework_closed_witness :
    ∃ cmd, get_exec_start (frameworkArg .flask) "/srv/app" "/srv/app/venv"
      8000 2 120 = .ok cmd :=
  c9_cli_framework_closed "flask" .flask "/srv/app" "/srv/app/venv"
    8000 2 120 rfl

/-- C10: comment detection looks at the raw line, so a line of leading
whitespace followed by `#` is not skipped; any non-blank line that does not
start with `#` in column one and contains no `=` reaches the
`key, value = line.strip().split('=', 1)` unpacking, which raises
`ValueError` instead of ignoring the line. -/
theorem c10_env_comment_checks_raw_line (l : List Char)
    (ls : List (List Char)) :
    (pyStrip l).isEmpty = false →
    startsWithHash l = false →
    '=' ∉ l →
    parseEnvLines (l :: ls) =
      .error (.envUnpackError (String.mk (pyStrip l))) := by
  intro h1 h2 he
  have hsplit : splitFirstEq (pyStrip l) = none :=
    splitFirstEq_eq_none (fun hm => he (mem_pyStrip hm))
  simp [parseEnvLines, h1, h2, hsplit]

/-- Witness for C10: an indented comment line is processed, not skipped,
and fails the unpacking. -/
theorem c10_env_comment_checks_raw_line_witness :
    parseEnvLines [" # indented comment".data] =
      .error (.envUnpackError "# indented comment") :=
  c10_env_comment_checks_raw_line " # indented comment".data []
    (by decide) (by decide) (by decide)
